import Mathlib

/-!
Verification development for `itslivetools` (`src/itslivetools/mosaic.py`).

The development shallowly embeds the catalog-construction and spatial-query
logic of `get_tiles`, and the year-argument sanitization of `download_tile`.
Network access (`urlopen`/`json.load`) is cut at the boundary: the decoded
JSON manifest is a parameter of the embedded function.  Console `print`
diagnostics are not part of any returned value and are not modelled.
Numeric coordinates are modelled as `Int` (the intersection test is purely
order-theoretic, so nothing in the embedded logic depends on fractional
values).  Strings are modelled as their ASCII character lists.
-/

/-- Characters of a Python string. -/
abbrev Chars := List Char

/-- ASCII case folding of one character; models Python `str.lower` on the
ASCII range (all region names involved are ASCII). -/
def asciiLower (c : Char) : Char :=
  if 'A' ≤ c && c ≤ 'Z' then Char.ofNat (c.toNat + 32) else c

/-- Models `region.lower()` (mosaic.py line 101). -/
def pyLower (s : String) : String := String.mk (s.data.map asciiLower)

/-- ASCII whitespace stripped by Python `int()` before parsing. -/
def isPySpace (c : Char) : Bool :=
  c == ' ' || c == '\t' || c == '\n' || c == '\r' || c == '\x0B' || c == '\x0C'

/-- ASCII decimal digit test. -/
def isAsciiDigit (c : Char) : Bool := '0' ≤ c && c ≤ '9'

/-- Numeric value of an ASCII digit. -/
def digitVal (c : Char) : Nat := c.toNat - 48

/-- Digits of a Python integer literal after the first digit: single
underscores are permitted between digits (`int("1_0") = 10`), nothing else. -/
def parseDigitsRest (acc : Nat) : Chars → Option Nat
  | [] => some acc
  | '_' :: c :: rest =>
      if isAsciiDigit c then parseDigitsRest (acc * 10 + digitVal c) rest
      else Option.none
  | ['_'] => Option.none
  | c :: rest =>
      if isAsciiDigit c then parseDigitsRest (acc * 10 + digitVal c) rest
      else Option.none

/-- Digit run of a Python integer literal: at least one digit, no leading
underscore. -/
def parseDigits : Chars → Option Nat
  | [] => Option.none
  | c :: rest =>
      if isAsciiDigit c then parseDigitsRest (digitVal c) rest
      else Option.none

/-- Models Python `int(s)` on an ASCII string: strip whitespace, optional
sign, decimal digits with optional single underscore separators; `none`
models the raised `ValueError`. -/
def pyInt (s : Chars) : Option Int :=
  let t := ((s.dropWhile isPySpace).reverse.dropWhile isPySpace).reverse
  match t with
  | '+' :: rest => (parseDigits rest).map Int.ofNat
  | '-' :: rest => (parseDigits rest).map (fun n => -(n : Int))
  | rest => (parseDigits rest).map Int.ofNat

/-- `s[i .. i+|pat|) = pat`: the literal `pat` occurs in `s` at offset `i`. -/
def matchAt (s pat : Chars) (i : Nat) : Bool :=
  (s.drop i).take pat.length == pat

/-- End position of a lazy `(.*?)` capture that starts at `i`: the least
`j ≥ i` whose position satisfies the lookahead `ahead`, such that no newline
occurs in `s[i..j)` (regex `.` does not cross newlines). -/
def captureEnd (s : Chars) (ahead : Nat → Bool) (i : Nat) : Option Nat :=
  (List.range (s.length + 1)).find? fun j =>
    decide (i ≤ j) && ahead j && !(((s.drop i).take (j - i)).contains '\n')

/-- Start position of the first (leftmost) match of a pattern
`(?<=behind)(.*?)(?=ahead)`: the least capture-start `i` preceded by the
literal `behind` from which some capture end exists. -/
def findMatchStart (s : Chars) (behind : Chars) (ahead : Nat → Bool) : Option Nat :=
  (List.range (s.length + 1)).find? fun i =>
    decide (behind.length ≤ i) && matchAt s behind (i - behind.length) &&
      (captureEnd s ahead i).isSome

/-- First capture of `re.findall(r"(?<=behind)(.*?)(?=ahead)", s)`
(`matches[0]` in the source); `none` models the `IndexError` on an empty
match list. -/
def extractFirst (s : Chars) (behind : Chars) (ahead : Nat → Bool) : Option Chars :=
  match findMatchStart s behind ahead with
  | Option.none => Option.none
  | some i =>
      match captureEnd s ahead i with
      | Option.none => Option.none
      | some j => some ((s.drop i).take (j - i))

/-- Lookahead `(?=_)`: a literal underscore at position `j`. -/
def underscoreAheadAt (s : Chars) (j : Nat) : Bool := matchAt s ['_'] j

/-- Lookahead `(?=.zarr)` (the dot is the regex any-character): some
non-newline character at `j` followed by the literal `zarr`. -/
def zarrAheadAt (s : Chars) (j : Nat) : Bool :=
  decide (j < s.length) && (s.getD j ' ' != '\n') && matchAt s ['z', 'a', 'r', 'r'] (j + 1)

/-- `re.findall(r"(?<=_X)(.*?)(?=_)", string)[0]` (mosaic.py lines 132-133). -/
def xMatch (s : Chars) : Option Chars := extractFirst s ['_', 'X'] (underscoreAheadAt s)

/-- `re.findall(r"(?<=_Y)(.*?)(?=.zarr)", string)[0]` (mosaic.py lines 135-136). -/
def yMatch (s : Chars) : Option Chars := extractFirst s ['_', 'Y'] (zarrAheadAt s)

/-- `re.findall(r"(?<=_EPSG)(.*?)(?=_)", string)[0]` (mosaic.py lines 138-139). -/
def epsgMatch (s : Chars) : Option Chars :=
  extractFirst s ['_', 'E', 'P', 'S', 'G'] (underscoreAheadAt s)

/-- `int(x_matches[0])` (mosaic.py line 142). -/
def xInt (s : Chars) : Option Int := (xMatch s).bind pyInt

/-- `int(y_matches[0])` (mosaic.py line 143). -/
def yInt (s : Chars) : Option Int := (yMatch s).bind pyInt

/-- `int(epsg_matches[0])` (mosaic.py line 144). -/
def epsgInt (s : Chars) : Option Int := (epsgMatch s).bind pyInt

/-- The `try` block of mosaic.py lines 141-149: all three extractions must
parse as integers; `none` models the raised `ValueError` (the bare `except`
catches both the `IndexError` of a failed match and the `ValueError` of a
failed conversion). -/
def parseTile (s : Chars) : Option (Int × Int × Int) := do
  let x ← xInt s
  let y ← yInt s
  let e ← epsgInt s
  pure (x, y, e)

/-- Axis-aligned rectangle produced by `shapely.geometry.box`. -/
structure Geom where
  xmin : Int
  ymin : Int
  xmax : Int
  ymax : Int
deriving DecidableEq

/-- `box(x - r, y - r, x + r, y + r)` with `r = 50000` (mosaic.py lines
152-153). -/
def mkSquare (x y : Int) : Geom :=
  { xmin := x - 50000, ymin := y - 50000, xmax := x + 50000, ymax := y + 50000 }

/-- One row of the catalog: its storage-location string from the
`composites_s3` column, the footprint geometry appended to `geometries`, and
the reference-system code appended to `epsg_list` (mosaic.py lines 128-156).
The remaining sanitized manifest columns are carried through the GeoDataFrame
unchanged and play no role in the embedded logic. -/
structure Tile where
  loc : Chars
  geom : Geom
  epsg : Int
deriving DecidableEq

/-- One loop iteration of mosaic.py lines 130-156 for a location string:
derive the footprint square and the reference-system code. -/
def deriveTile (s : Chars) : Option Tile :=
  (parseTile s).map fun xye =>
    { loc := s, geom := mkSquare xye.1 xye.2.1, epsg := xye.2.2 }

/-- The reference-system code decoded from a storage-location string. -/
def decodedEpsg (s : Chars) : Option Int := (parseTile s).map fun xye => xye.2.2

/-- A JSON value inside a manifest column: either a string (the shape of
`composites_s3` entries, to which `re.findall` applies) or any other value
(on which `re.findall` would raise `TypeError`). -/
inductive PyVal where
  | vstr (s : Chars)
  | vother
deriving DecidableEq

/-- One manifest column: an ordered sequence of values. -/
abbrev Column := List PyVal

/-- The decoded JSON manifest: column name to value sequence, in the
insertion (document) order that Python `dict` iteration follows. -/
abbrev Manifest := List (String × Column)

/-- The sanitization loop of mosaic.py lines 112-124 with the running
`length` state.  `length` starts as `None`; `if not length` is true for both
`None` and `0` (Python falsiness), in which case `length` is reset to the
current column's length; a column is retained iff its length equals the
(possibly just reset) `length` — after a reset that comparison is
`len(col) == len(col)` and the column is always retained. -/
def sanitizeAux (len? : Option Nat) : Manifest → Manifest
  | [] => []
  | (k, col) :: rest =>
      match len? with
      | some (n + 1) =>
          if col.length = n + 1 then (k, col) :: sanitizeAux (some (n + 1)) rest
          else sanitizeAux (some (n + 1)) rest
      | _ =>
          (k, col) :: sanitizeAux (some col.length) rest

/-- `cube_dict` as assembled by mosaic.py lines 112-124. -/
def sanitize (m : Manifest) : Manifest := sanitizeAux Option.none m

/-- Python `dict` key lookup on the (duplicate-free) sanitized manifest;
`none` models the `KeyError`. -/
def lookupCol (m : Manifest) (k : String) : Option Column :=
  match m with
  | [] => Option.none
  | (k1, c) :: rest => if k1 = k then some c else lookupCol rest k

/-- The message of the `ValueError` raised at mosaic.py line 149. -/
def parseErrMsg : String := "Failed to find X/Y coordinates or EPSG"

/-- The message of the `ValueError` raised at mosaic.py lines 161-163. -/
def mixedMsg : String :=
  "All cubes must have same EPSG. Multiple EPSG region handling not yet implemented."

/-- The message of the `ValueError` raised at mosaic.py line 103 (the Python
f-string interpolates `VALID_LOCATIONS.keys()`; the rendered key list is
abbreviated here, no claim depends on this text). -/
def invalidRegionMsg : String := "Region must be one of greenland, antarctica"

/-- The exceptions `get_tiles` can raise, distinguished the way Python
distinguishes them (exception class and message; `epsgMismatch` carries the
two interpolated codes of the f-string at mosaic.py lines 168-170). -/
inductive Err where
  | invalidRegion (msg : String)
  | keyError (key : String)
  | typeError
  | geometryParse (msg : String)
  | mixedEPSG (msg : String)
  | epsgMismatch (received expected : Int)
deriving DecidableEq

/-- The geometry-derivation loop of mosaic.py lines 128-156 over the
`composites_s3` column: sequential, failing the whole build at the first
entry that is not a string (`TypeError` from `re.findall`) or does not parse
(`ValueError` from line 149). -/
def buildTiles : Column → Except Err (List Tile)
  | [] => .ok []
  | PyVal.vother :: _ => .error Err.typeError
  | PyVal.vstr s :: rest =>
      match deriveTile s with
      | Option.none => .error (Err.geometryParse parseErrMsg)
      | some t =>
          match buildTiles rest with
          | .error e => .error e
          | .ok ts => .ok (t :: ts)

/-- The caller-supplied bounding box `(xmin, ymin, xmax, ymax)`. -/
structure Box where
  xmin : Int
  ymin : Int
  xmax : Int
  ymax : Int
deriving DecidableEq

/-- Minimum of two integers, written out so proofs can split the `if`. -/
def imin (a b : Int) : Int := if a ≤ b then a else b

/-- Maximum of two integers, written out so proofs can split the `if`. -/
def imax (a b : Int) : Int := if a ≤ b then b else a

/-- `gdf.intersects(box(*bounds))` for one row (mosaic.py line 174):
the closed rectangles share a point.  `shapely.geometry.box` spans the
rectangle between the given corner coordinates regardless of their order,
hence the normalization by `imin`/`imax`; the GEOS `intersects` predicate
counts boundary contact. -/
def boxIntersects (b : Box) (g : Geom) : Bool :=
  decide (imin b.xmin b.xmax ≤ imax g.xmin g.xmax) &&
  decide (imin g.xmin g.xmax ≤ imax b.xmin b.xmax) &&
  decide (imin b.ymin b.ymax ≤ imax g.ymin g.ymax) &&
  decide (imin g.ymin g.ymax ≤ imax b.ymin b.ymax)

/-- `x` lies in the closed span between `lo` and `hi` (in either order). -/
def inSpan (lo hi x : Int) : Prop := imin lo hi ≤ x ∧ x ≤ imax lo hi

/-- The point `(px, py)` lies in the closed rectangle of a bounding box. -/
def pointInBox (b : Box) (px py : Int) : Prop :=
  inSpan b.xmin b.xmax px ∧ inSpan b.ymin b.ymax py

/-- The point `(px, py)` lies in the closed rectangle of a footprint. -/
def pointInGeom (g : Geom) (px py : Int) : Prop :=
  inSpan g.xmin g.xmax px ∧ inSpan g.ymin g.ymax py

/-- The GeoDataFrame returned by `get_tiles`: the ordered tile rows and the
single shared reference-system code (`crs=epsg`, mosaic.py line 173). -/
structure Catalog where
  entries : List Tile
  crs : Int
deriving DecidableEq

/-- The spatial-query step `gdf = gdf[gdf.intersects(box(*bounds))]`
(mosaic.py line 174): keep, in order, the rows whose footprint intersects
the box. -/
def query (c : Catalog) (b : Box) : Catalog :=
  { entries := c.entries.filter (fun t => boxIntersects b t.geom), crs := c.crs }

/-- `VALID_LOCATIONS` (mosaic.py lines 16-19). -/
def VALID_LOCATIONS : List (String × String) :=
  [("greenland", "RGI05A"), ("antarctica", "RGI19A")]

/-- `LOCATION_EPSG` (mosaic.py lines 21-24). -/
def LOCATION_EPSG : List (String × Int) :=
  [("greenland", 3413), ("antarctica", 3031)]

/-- `LOCATION_EPSG[region]` for a validated region (mosaic.py line 105);
the default is unreachable because the region was checked against
`VALID_LOCATIONS`, whose keys coincide with those of `LOCATION_EPSG`. -/
def regionEpsgOf (r : String) : Int := (LOCATION_EPSG.lookup r).getD 0

/-- `region in VALID_LOCATIONS.keys()` (mosaic.py line 102). -/
def isValidRegion (r : String) : Bool := VALID_LOCATIONS.any fun kv => kv.1 == r

/-- mosaic.py lines 104-176 after the region has been validated and
lower-cased: sanitize the manifest, look up `composites_s3` (a Python
`KeyError` if sanitization dropped it), derive all tile footprints, enforce
the single-EPSG invariants, build the GeoDataFrame and filter it by the
bounding box. -/
def getTilesChecked (m : Manifest) (r : String) (b : Box) : Except Err Catalog :=
  match lookupCol (sanitize m) "composites_s3" with
  | Option.none => .error (Err.keyError "composites_s3")
  | some col =>
      match buildTiles col with
      | .error e => .error e
      | .ok tiles =>
          if ((tiles.map Tile.epsg).dedup).length = 1 then
            if ((tiles.map Tile.epsg).dedup).headD 0 = regionEpsgOf r then
              .ok (query { entries := tiles, crs := ((tiles.map Tile.epsg).dedup).headD 0 } b)
            else
              .error (Err.epsgMismatch (((tiles.map Tile.epsg).dedup).headD 0) (regionEpsgOf r))
          else .error (Err.mixedEPSG mixedMsg)

/-- `get_tiles` (mosaic.py lines 72-176) with the fetched JSON manifest as a
parameter (the `urlopen`/`json.load` boundary): lower-case the region,
validate it against `VALID_LOCATIONS`, then proceed as `getTilesChecked`. -/
def getTiles (m : Manifest) (region : String) (b : Box) : Except Err Catalog :=
  if isValidRegion (pyLower region) then getTilesChecked m (pyLower region) b
  else .error (Err.invalidRegion invalidRegionMsg)

/-- The shapes a `year` argument of `download_tile` can take: `None` (the
default), an `int`, a `list`/`tuple` of ints, or any other value (a string
stands in for all non-int non-sequence values; its emptiness models Python
falsiness, as `0` does for `int` and `[]` for `seq`). -/
inductive YearArg where
  | noneArg
  | intArg (n : Int)
  | seq (l : List Int)
  | strval (s : Chars)
deriving DecidableEq

/-- Python truthiness of a `year` argument, as tested by `if year:`
(mosaic.py line 220). -/
def yearTruthy : YearArg → Bool
  | YearArg.noneArg => false
  | YearArg.intArg n => n != 0
  | YearArg.seq l => !l.isEmpty
  | YearArg.strval s => !s.isEmpty

/-- The shapes the specification accepts: a single integer or an
exactly-length-2 ordered pair. -/
def yearWellShaped : YearArg → Bool
  | YearArg.intArg _ => true
  | YearArg.seq l => l.length == 2
  | _ => false

/-- Message of the `ValueError` at mosaic.py line 226. -/
def yearLenMsg : String := "year list must be length == 2"

/-- Message of the `ValueError` at mosaic.py line 230. -/
def yearShapeMsg : String := "year must be integer or list of two integers"

/-- The year-sanitization block of `download_tile` (mosaic.py lines
219-230): skipped entirely when `year` is falsy; otherwise an `int` becomes
the degenerate range, a `list`/`tuple` must have length exactly 2, and any
other type raises.  `ok none` means no year filtering happens later. -/
def sanitizeYear : YearArg → Except String (Option (Int × Int))
  | YearArg.noneArg => .ok Option.none
  | YearArg.intArg n => if n = 0 then .ok Option.none else .ok (some (n, n))
  | YearArg.seq l =>
      match l with
      | [] => .ok Option.none
      | [a, b] => .ok (some (a, b))
      | _ => .error yearLenMsg
  | YearArg.strval s => if s.isEmpty then .ok Option.none else .error yearShapeMsg

/-- `true` iff the year sanitization did not raise. -/
def exceptOk : Except String (Option (Int × Int)) → Bool
  | .ok _ => true
  | .error _ => false

/-- Modelled from the spec (claim C4 wording): retain exactly the columns
whose length equals the full length taken from the first column encountered
in iteration order.  Compared against `sanitize`, which is translated from
the code. -/
def sanitizeSpecFirst (m : Manifest) : Manifest :=
  match m with
  | [] => []
  | (_, c) :: _ => m.filter fun kc => kc.2.length == c.length

/-- Closed form of what the code's sanitization actually retains: all
leading zero-length columns (each retained while the running `length` is
falsy), then, from the first column of nonzero length onward, exactly the
columns whose length equals that first nonzero length. -/
def sanitizeAmended (m : Manifest) : Manifest :=
  match m.dropWhile (fun kc => kc.2.length == 0) with
  | [] => m
  | (_, c) :: _ =>
      m.takeWhile (fun kc => kc.2.length == 0) ++
        (m.dropWhile (fun kc => kc.2.length == 0)).filter
          (fun kc => kc.2.length == c.length)

/-- A well-formed Greenland location string (EPSG before the X/Y tokens, Y
token directly before `.zarr`, the layout of real ITS_LIVE composite urls). -/
def glLoc : Chars := "_EPSG3413_X0_Y0.zarr".data

/-- A well-formed Antarctica location string. -/
def aqLoc : Chars := "_EPSG3031_X0_Y0.zarr".data

/-- A location string whose X token is not an integer while the Y and EPSG
extractions succeed. -/
def xFailLoc : Chars := "_EPSG3413_Xa_Y0.zarr".data

/-- A location string whose Y token is not an integer while the X and EPSG
extractions succeed. -/
def yFailLoc : Chars := "_EPSG3413_X0_Yb.zarr".data

/-- The corrected form of the specification's worked example: X = 123000,
Y = -50000, EPSG 3413, with the Y token directly before `.zarr`. -/
def exLoc : Chars := "_EPSG3413_X123000_Y-50000.zarr".data

/-- A string of the shape the specification's worked example describes
(`...X123000_Y-50000_EPSG3413...`): the EPSG token sits between the Y token
and the `.zarr` suffix, so the lazy Y capture runs up to the character
before `zarr` and is not an integer. -/
def exBadLoc : Chars := "ITS_X123000_Y-50000_EPSG3413_.zarr".data

/-- The tile derived from `glLoc`. -/
def glTile : Tile :=
  { loc := glLoc
    geom := { xmin := -50000, ymin := -50000, xmax := 50000, ymax := 50000 }
    epsg := 3413 }

/-- The tile derived from `aqLoc`. -/
def aqTile : Tile :=
  { loc := aqLoc
    geom := { xmin := -50000, ymin := -50000, xmax := 50000, ymax := 50000 }
    epsg := 3031 }

/-- A small bounding box around the origin. -/
def b0 : Box := { xmin := -1, ymin := -1, xmax := 1, ymax := 1 }

/-- A one-tile Greenland manifest. -/
def manifestG : Manifest := [("composites_s3", [PyVal.vstr glLoc])]

/-- The catalog `getTiles manifestG "greenland" b0` returns. -/
def catG : Catalog := { entries := [glTile], crs := 3413 }

/-- A manifest mixing a Greenland and an Antarctica tile. -/
def manifestMixed : Manifest := [("composites_s3", [PyVal.vstr glLoc, PyVal.vstr aqLoc])]

/-- A manifest whose single location string fails to parse. -/
def manifestBad : Manifest := [("composites_s3", [PyVal.vstr xFailLoc])]

/-- A manifest whose `composites_s3` column is empty and, being the first
column, survives sanitization. -/
def manifestEmptyCol : Manifest := [("composites_s3", [])]

/-- A manifest whose `composites_s3` column is empty but preceded by a
nonempty column, so sanitization drops it. -/
def manifestDroppedCol : Manifest := [("a", [PyVal.vother]), ("composites_s3", [])]

/-- A manifest whose first column is empty: the running `length` stays falsy
after it, so the second column resets the full length and is retained
despite its different length. -/
def manifestC4 : Manifest := [("a", []), ("b", [PyVal.vother])]

/-- Two closed integer spans overlap iff the usual endpoint inequalities
hold; boundary contact counts because the spans are closed. -/
theorem span_overlap_iff (a b c d : Int) :
    (imin a b ≤ imax c d ∧ imin c d ≤ imax a b) ↔
      ∃ x : Int, inSpan a b x ∧ inSpan c d x := by
  constructor
  · rintro ⟨h1, h2⟩
    refine ⟨imax (imin a b) (imin c d), ?_⟩
    simp only [inSpan, imin, imax] at *
    split_ifs at * <;> omega
  · rintro ⟨x, hx1, hx2⟩
    simp only [inSpan, imin, imax] at *
    split_ifs at * <;> omega

/-- The coded intersection test holds iff the two closed rectangles share a
point; in particular boundary-touching counts as intersecting. -/
theorem boxIntersects_iff (b : Box) (g : Geom) :
    boxIntersects b g = true ↔
      ∃ px py : Int, pointInBox b px py ∧ pointInGeom g px py := by
  simp only [boxIntersects, Bool.and_eq_true, decide_eq_true_eq]
  constructor
  · rintro ⟨⟨⟨hx1, hx2⟩, hy1⟩, hy2⟩
    obtain ⟨px, hpx⟩ := (span_overlap_iff b.xmin b.xmax g.xmin g.xmax).mp ⟨hx1, hx2⟩
    obtain ⟨py, hpy⟩ := (span_overlap_iff b.ymin b.ymax g.ymin g.ymax).mp ⟨hy1, hy2⟩
    exact ⟨px, py, ⟨hpx.1, hpy.1⟩, ⟨hpx.2, hpy.2⟩⟩
  · rintro ⟨px, py, ⟨hbx, hby⟩, ⟨hgx, hgy⟩⟩
    have hx := (span_overlap_iff b.xmin b.xmax g.xmin g.xmax).mpr ⟨px, hbx, hgx⟩
    have hy := (span_overlap_iff b.ymin b.ymax g.ymin g.ymax).mpr ⟨py, hby, hgy⟩
    exact ⟨⟨⟨hx.1, hx.2⟩, hy.1⟩, hy.2⟩

/-- Claim C2: the spatial query returns exactly the tiles whose footprint
geometrically intersects the box (sharing a point, boundary contact
included), as a stable-order subset of the catalog: the result is a sublist
(original order, subset), every returned tile intersects the box, and every
intersecting tile of the catalog is returned. -/
theorem query_exact_intersecting (c : Catalog) (b : Box) :
    (query c b).entries.Sublist c.entries ∧
      (∀ t ∈ (query c b).entries,
        ∃ px py : Int, pointInBox b px py ∧ pointInGeom t.geom px py) ∧
      (∀ t ∈ c.entries,
        (∃ px py : Int, pointInBox b px py ∧ pointInGeom t.geom px py) →
          t ∈ (query c b).entries) := by
  refine ⟨List.filter_sublist _, ?_, ?_⟩
  · intro t ht
    have hmem := List.mem_filter.mp ht
    exact (boxIntersects_iff b t.geom).mp hmem.2
  · intro t ht hint
    exact List.mem_filter.mpr ⟨ht, (boxIntersects_iff b t.geom).mpr hint⟩

/-- Witness for claim C2 at a concrete catalog and box: the single Greenland
tile is returned, so some point lies in both rectangles. -/
theorem query_exact_intersecting_witness :
    ∃ px py : Int, pointInBox b0 px py ∧ pointInGeom glTile.geom px py :=
  (query_exact_intersecting catG b0).2.1 glTile (by decide)

/-- Claim C7: the spatial query is idempotent — filtering an already
filtered catalog by the same box changes nothing. -/
theorem query_idempotent (c : Catalog) (b : Box) :
    query (query c b) b = query c b := by
  simp [query, List.filter_filter]

/-- A running length of `0` is falsy exactly like the initial `None`: the
sanitization continues identically. -/
theorem sanitizeAux_zero (m : Manifest) :
    sanitizeAux (some 0) m = sanitizeAux Option.none m := by
  cases m with
  | nil => rfl
  | cons kc rest => cases kc with | mk k col => rfl

/-- Once the running length is nonzero it never resets, and the remaining
columns are kept exactly when their length matches it. -/
theorem sanitizeAux_pos (n : Nat) (m : Manifest) :
    sanitizeAux (some (n + 1)) m = m.filter fun kc => kc.2.length == n + 1 := by
  induction m with
  | nil => rfl
  | cons kc rest ih =>
    cases kc with
    | mk k col =>
      by_cases h : col.length = n + 1
      · simp [sanitizeAux, List.filter_cons, beq_iff_eq, h, ih]
      · simp [sanitizeAux, List.filter_cons, beq_iff_eq, h, ih]

/-- Amended claim C4: sanitization retains all leading zero-length columns,
takes the "full length" from the first column of nonzero length, and from
there on retains exactly the columns whose length equals that full length;
it never raises (it is a total function).  When the first column is
non-empty this coincides with the original claim; when the first column is
empty the running length stays falsy (Python `if not length`) and is reset
at each column until a non-empty one appears. -/
theorem sanitize_eq_amended (m : Manifest) : sanitize m = sanitizeAmended m := by
  induction m with
  | nil => rfl
  | cons kc rest ih =>
    cases kc with
    | mk k col =>
      cases hcol : col.length with
      | zero =>
        have hnil : col = [] := List.length_eq_zero.mp hcol
        subst hnil
        have h1 : sanitize ((k, ([] : Column)) :: rest) = (k, []) :: sanitize rest := by
          show sanitizeAux Option.none _ = _
          simp only [sanitizeAux, List.length_nil]
          rw [sanitizeAux_zero]
          rfl
        rw [h1, ih]
        show _ = sanitizeAmended ((k, ([] : Column)) :: rest)
        unfold sanitizeAmended
        cases hd : rest.dropWhile (fun kc => kc.2.length == 0) with
        | nil =>
          simp only [List.dropWhile_cons, List.takeWhile_cons, List.length_nil]
          simp only [hd]
          simp [sanitizeAmended, hd]
        | cons kc2 tl =>
          cases kc2 with
          | mk k2 c2 =>
            simp only [List.dropWhile_cons, List.takeWhile_cons, List.length_nil]
            simp only [hd]
            simp [sanitizeAmended, hd]
      | succ n =>
        have h1 : sanitize ((k, col) :: rest) =
            (k, col) :: rest.filter (fun kc => kc.2.length == n + 1) := by
          show sanitizeAux Option.none _ = _
          simp only [sanitizeAux, hcol]
          rw [sanitizeAux_pos]
        rw [h1]
        unfold sanitizeAmended
        have hp : (fun kc => kc.2.length == 0) ((k, col) : String × Column) = false := by
          simp [hcol]
        rw [List.dropWhile_cons_of_neg (by simp [hp]), List.takeWhile_cons_of_neg (by simp [hp])]
        simp [List.filter_cons, hcol]

/-- Counterexample to claim C4 as stated: in `manifestC4` the first column
encountered has length 0, so the claimed rule would retain only column "a"
and discard "b"; the code instead retains both, because `if not length`
treats the length 0 exactly like the initial `None` and resets the full
length at column "b". -/
theorem sanitize_first_column_counterexample :
    sanitize manifestC4 = manifestC4 ∧
      sanitizeSpecFirst manifestC4 = [("a", [])] ∧
      sanitize manifestC4 ≠ sanitizeSpecFirst manifestC4 := by
  refine ⟨rfl, rfl, ?_⟩
  decide

/-- Counterexample to claim C8 as stated: the empty list is a supplied year
argument of wrong length (0, not 2), yet `download_tile` raises nothing for
it — `if year:` is false for an empty sequence, so the shape validation is
skipped entirely and the year is treated as unspecified. -/
theorem sanitizeYear_empty_list_counterexample :
    sanitizeYear (YearArg.seq []) = .ok Option.none := rfl

/-- Amended claim C8: a truthy year argument is accepted iff it is a single
integer or an exactly-length-2 sequence (any other truthy shape raises);
falsy arguments — `None`, `0`, an empty sequence, an empty non-sequence —
skip validation and are accepted as "no year specified". -/
theorem sanitizeYear_ok_iff (y : YearArg) :
    exceptOk (sanitizeYear y) = true ↔
      (yearTruthy y = false ∨ yearWellShaped y = true) := by
  cases y with
  | noneArg => simp [sanitizeYear, yearTruthy, exceptOk]
  | intArg n =>
    by_cases h : n = 0 <;>
      simp [sanitizeYear, yearTruthy, yearWellShaped, exceptOk, h]
  | seq l =>
    rcases l with _ | ⟨a, _ | ⟨b, _ | ⟨c, tl⟩⟩⟩ <;>
      simp [sanitizeYear, yearTruthy, yearWellShaped, exceptOk]
  | strval s =>
    cases s <;> simp [sanitizeYear, yearTruthy, yearWellShaped, exceptOk]

/-- The region test of mosaic.py line 102 holds exactly for the two table
keys. -/
theorem isValidRegion_iff (r : String) :
    isValidRegion r = true ↔ (r = "greenland" ∨ r = "antarctica") := by
  unfold isValidRegion VALID_LOCATIONS
  simp only [List.any_cons, List.any_nil, Bool.or_eq_true, Bool.or_false, beq_iff_eq]
  constructor
  · rintro (h | h)
    · exact Or.inl h.symm
    · exact Or.inr h.symm
  · rintro (h | h)
    · exact Or.inl h.symm
    · exact Or.inr h.symm

/-- For a valid (lower-cased) region, `get_tiles` proceeds past the region
check with the lower-cased region. -/
theorem getTiles_eq_checked (m : Manifest) (region : String) (b : Box)
    (h : pyLower region = "greenland" ∨ pyLower region = "antarctica") :
    getTiles m region b = getTilesChecked m (pyLower region) b := by
  have hv : isValidRegion (pyLower region) = true := (isValidRegion_iff _).mpr h
  simp [getTiles, hv]

/-- For an invalid region, `get_tiles` raises the invalid-region error. -/
theorem getTiles_invalid (m : Manifest) (region : String) (b : Box)
    (h : ¬(pyLower region = "greenland" ∨ pyLower region = "antarctica")) :
    getTiles m region b = .error (Err.invalidRegion invalidRegionMsg) := by
  have hv : isValidRegion (pyLower region) = false := by
    cases hvb : isValidRegion (pyLower region)
    · rfl
    · exact absurd ((isValidRegion_iff _).mp hvb) h
  simp [getTiles, hv]

/-- Claim C9: region matching is case-insensitive — any string whose
lowercasing is `greenland` or `antarctica` proceeds with that lower-cased
region, and any other string raises the invalid-region error. -/
theorem region_case_insensitive (m : Manifest) (region : String) (b : Box) :
    ((pyLower region = "greenland" ∨ pyLower region = "antarctica") →
        getTiles m region b = getTilesChecked m (pyLower region) b) ∧
      (¬(pyLower region = "greenland" ∨ pyLower region = "antarctica") →
        getTiles m region b = .error (Err.invalidRegion invalidRegionMsg)) :=
  ⟨getTiles_eq_checked m region b, getTiles_invalid m region b⟩

/-- Witness for claim C9 at the concrete region string "GREENLAND". -/
theorem region_case_insensitive_witness :
    getTiles manifestG "GREENLAND" b0 = getTilesChecked manifestG (pyLower "GREENLAND") b0 :=
  (region_case_insensitive manifestG "GREENLAND" b0).1 (Or.inl (by decide))

/-- A successfully derived tile records its own location string, and the
code it stores is the one decoded from that string. -/
theorem deriveTile_fields (s : Chars) (t : Tile) (h : deriveTile s = some t) :
    t.loc = s ∧ decodedEpsg s = some t.epsg := by
  unfold deriveTile at h
  obtain ⟨xye, hp, hf⟩ := Option.map_eq_some'.mp h
  subst hf
  exact ⟨rfl, by simp [decodedEpsg, hp]⟩

/-- Every tile of a successful geometry-derivation loop is the derivation of
its own location string. -/
theorem buildTiles_mem (col : Column) (tiles : List Tile)
    (h : buildTiles col = .ok tiles) :
    ∀ t ∈ tiles, deriveTile t.loc = some t := by
  induction col generalizing tiles with
  | nil =>
    simp only [buildTiles, Except.ok.injEq] at h
    subst h
    intro t ht
    exact absurd ht (List.not_mem_nil t)
  | cons v rest ih =>
    cases v with
    | vother =>
      simp only [buildTiles] at h
      exact Except.noConfusion h
    | vstr s =>
      simp only [buildTiles] at h
      cases hd : deriveTile s with
      | none =>
        simp only [hd] at h
        exact Except.noConfusion h
      | some t0 =>
        simp only [hd] at h
        cases hbt : buildTiles rest with
        | error e =>
          simp only [hbt] at h
          exact Except.noConfusion h
        | ok ts =>
          simp only [hbt, Except.ok.injEq] at h
          subst h
          intro t ht
          rcases List.mem_cons.mp ht with h1 | h1
          · rw [h1, (deriveTile_fields s t0 hd).1]
            exact hd
          · exact ih ts hbt t h1

/-- If every entry of the column is a string and some entry fails to parse,
the whole derivation loop fails with the (fixed-message) parse error. -/
theorem buildTiles_parse_error (col : Column)
    (hall : ∀ v ∈ col, ∃ u, v = PyVal.vstr u)
    (hbad : ∃ s, PyVal.vstr s ∈ col ∧ parseTile s = Option.none) :
    buildTiles col = .error (Err.geometryParse parseErrMsg) := by
  induction col with
  | nil =>
    obtain ⟨s, hs, _⟩ := hbad
    exact absurd hs (List.not_mem_nil _)
  | cons v rest ih =>
    obtain ⟨u, hu⟩ := hall v (List.mem_cons_self v rest)
    subst hu
    simp only [buildTiles]
    cases hd : deriveTile u with
    | none => rfl
    | some t0 =>
      obtain ⟨s, hs, hpf⟩ := hbad
      rcases List.mem_cons.mp hs with h1 | h1
      · injection h1 with h1
        subst h1
        unfold deriveTile at hd
        rw [hpf] at hd
        simp at hd
      · have hrest := ih (fun w hw => hall w (List.mem_cons_of_mem _ hw)) ⟨s, h1, hpf⟩
        rw [hrest]

/-- If the deduplicated list has exactly one element, every element of the
original list equals it. -/
theorem dedup_singleton_eq (l : List Int) (h : l.dedup.length = 1) :
    ∀ a ∈ l, a = l.dedup.headD 0 := by
  obtain ⟨e, he⟩ := List.length_eq_one.mp h
  intro a ha
  have hmem : a ∈ l.dedup := List.mem_dedup.mpr ha
  rw [he] at hmem ⊢
  simpa using hmem

/-- After the region check, a successful catalog carries the region's
expected code: every returned tile decodes to it, stores it, and the
catalog's reference system is it. -/
theorem getTilesChecked_ok_mem (m : Manifest) (r : String) (b : Box)
    (cat : Catalog) (t : Tile)
    (hok : getTilesChecked m r b = .ok cat) (ht : t ∈ cat.entries) :
    decodedEpsg t.loc = some (regionEpsgOf r) ∧ t.epsg = regionEpsgOf r ∧
      cat.crs = regionEpsgOf r := by
  unfold getTilesChecked at hok
  cases hcol : lookupCol (sanitize m) "composites_s3" with
  | none =>
    simp only [hcol] at hok
    exact Except.noConfusion hok
  | some col =>
    simp only [hcol] at hok
    cases hbt : buildTiles col with
    | error e =>
      simp only [hbt] at hok
      exact Except.noConfusion hok
    | ok tiles =>
      simp only [hbt] at hok
      by_cases hlen : ((tiles.map Tile.epsg).dedup).length = 1
      · rw [if_pos hlen] at hok
        by_cases heq : ((tiles.map Tile.epsg).dedup).headD 0 = regionEpsgOf r
        · rw [if_pos heq] at hok
          simp only [Except.ok.injEq] at hok
          subst hok
          have htm : t ∈ tiles := by
            simp only [query] at ht
            exact List.mem_of_mem_filter ht
          have hder : deriveTile t.loc = some t := buildTiles_mem col tiles hbt t htm
          have hepsg : t.epsg = regionEpsgOf r := by
            have hmem : t.epsg ∈ tiles.map Tile.epsg := List.mem_map_of_mem Tile.epsg htm
            exact (dedup_singleton_eq (tiles.map Tile.epsg) hlen t.epsg hmem).trans heq
          refine ⟨?_, hepsg, ?_⟩
          · rw [(deriveTile_fields t.loc t hder).2, hepsg]
          · exact heq
        · rw [if_neg heq] at hok
          exact Except.noConfusion hok
      · rw [if_neg hlen] at hok
        exact Except.noConfusion hok

/-- Claim C1: for a valid region, whenever `get_tiles` returns a catalog,
the reference-system code decoded from every returned tile's
storage-location string is the region's expected code — 3413 for greenland,
3031 for antarctica; no catalog with a non-matching code is returned. -/
theorem getTiles_ok_epsg (m : Manifest) (region : String) (b : Box)
    (cat : Catalog) (t : Tile)
    (hreg : pyLower region = "greenland" ∨ pyLower region = "antarctica")
    (hok : getTiles m region b = .ok cat) (ht : t ∈ cat.entries) :
    decodedEpsg t.loc = some (regionEpsgOf (pyLower region)) ∧
      regionEpsgOf (pyLower region) =
        (if pyLower region = "greenland" then 3413 else 3031) := by
  rw [getTiles_eq_checked m region b hreg] at hok
  refine ⟨(getTilesChecked_ok_mem m (pyLower region) b cat t hok ht).1, ?_⟩
  rcases hreg with h | h <;> rw [h] <;> rfl

/-- Witness for claim C1 at a concrete one-tile Greenland manifest. -/
theorem getTiles_ok_epsg_witness :
    decodedEpsg glTile.loc = some (regionEpsgOf (pyLower "greenland")) ∧
      regionEpsgOf (pyLower "greenland") =
        (if pyLower "greenland" = "greenland" then 3413 else 3031) :=
  getTiles_ok_epsg manifestG "greenland" b0 catG glTile (Or.inl (by decide))
    rfl (by decide)

/-- Claim C5: if the derived tiles carry two distinct reference-system
codes, catalog construction fails with the mixed-reference-system error. -/
theorem mixed_epsg_error (m : Manifest) (region : String) (b : Box)
    (col : Column) (tiles : List Tile) (t1 t2 : Tile)
    (hreg : pyLower region = "greenland" ∨ pyLower region = "antarctica")
    (hcol : lookupCol (sanitize m) "composites_s3" = some col)
    (hbt : buildTiles col = .ok tiles)
    (h1 : t1 ∈ tiles) (h2 : t2 ∈ tiles) (hne : t1.epsg ≠ t2.epsg) :
    getTiles m region b = .error (Err.mixedEPSG mixedMsg) := by
  rw [getTiles_eq_checked m region b hreg]
  unfold getTilesChecked
  simp only [hcol, hbt]
  have hlen : ((tiles.map Tile.epsg).dedup).length ≠ 1 := by
    intro hlen
    have e1 := dedup_singleton_eq (tiles.map Tile.epsg) hlen t1.epsg
      (List.mem_map_of_mem Tile.epsg h1)
    have e2 := dedup_singleton_eq (tiles.map Tile.epsg) hlen t2.epsg
      (List.mem_map_of_mem Tile.epsg h2)
    exact hne (e1.trans e2.symm)
  rw [if_neg hlen]

/-- Witness for claim C5: a Greenland tile and an Antarctica tile in one
manifest make the build fail with the mixed-reference-system error. -/
theorem mixed_epsg_error_witness :
    getTiles manifestMixed "greenland" b0 = .error (Err.mixedEPSG mixedMsg) :=
  mixed_epsg_error manifestMixed "greenland" b0
    [PyVal.vstr glLoc, PyVal.vstr aqLoc] [glTile, aqTile] glTile aqTile
    (Or.inl (by decide)) rfl rfl (List.Mem.head _)
    (List.Mem.tail _ (List.Mem.head _)) (by decide)

/-- Amended claim C10: if the storage-location column survives sanitization
as an empty column (for example because it is the manifest's first column),
catalog construction raises exactly the error of the
multiple-reference-system case — zero tiles give zero distinct codes and
`len(set) != 1` — rather than returning an empty catalog.  (If sanitization
drops the column instead, a missing-column `KeyError` is raised; see the
counterexample.) -/
theorem empty_column_mixed_error (m : Manifest) (region : String) (b : Box)
    (hreg : pyLower region = "greenland" ∨ pyLower region = "antarctica")
    (hcol : lookupCol (sanitize m) "composites_s3" = some []) :
    getTiles m region b = .error (Err.mixedEPSG mixedMsg) := by
  rw [getTiles_eq_checked m region b hreg]
  unfold getTilesChecked
  simp only [hcol]
  rfl

/-- Witness for claim C10: a manifest whose only column is an empty
`composites_s3`. -/
theorem empty_column_mixed_error_witness :
    getTiles manifestEmptyCol "greenland" b0 = .error (Err.mixedEPSG mixedMsg) :=
  empty_column_mixed_error manifestEmptyCol "greenland" b0 (Or.inl (by decide)) rfl

/-- Counterexample to claim C10 as stated: when the empty storage-location
column is preceded by a longer column, sanitization drops it and the build
fails with the missing-column `KeyError`, not with the
multiple-reference-system error the claim requires. -/
theorem empty_column_dropped_counterexample :
    getTiles manifestDroppedCol "greenland" b0 = .error (Err.keyError "composites_s3") ∧
      Err.keyError "composites_s3" ≠ Err.mixedEPSG mixedMsg :=
  ⟨rfl, by decide⟩

/-- Amended claim C6: when every entry of the (sanitized) storage-location
column is a string and any of the three extractions of some entry fails to
yield an integer, the whole build fails fast (no per-tile skip) with the
parse error; that error carries only the fixed message "Failed to find X/Y
coordinates or EPSG" and therefore names neither the offending string nor
which of the three extractions failed (the match lists are only printed to
the console, not attached to the exception). -/
theorem parse_failure_fails_build (m : Manifest) (region : String) (b : Box)
    (col : Column) (s : Chars)
    (hreg : pyLower region = "greenland" ∨ pyLower region = "antarctica")
    (hcol : lookupCol (sanitize m) "composites_s3" = some col)
    (hall : ∀ v ∈ col, ∃ u, v = PyVal.vstr u)
    (hs : PyVal.vstr s ∈ col) (hfail : parseTile s = Option.none) :
    getTiles m region b = .error (Err.geometryParse parseErrMsg) := by
  rw [getTiles_eq_checked m region b hreg]
  unfold getTilesChecked
  simp only [hcol, buildTiles_parse_error col hall ⟨s, hs, hfail⟩]

/-- Witness for claim C6 at a concrete manifest whose single location
string has a non-integer X token. -/
theorem parse_failure_fails_build_witness :
    getTiles manifestBad "greenland" b0 = .error (Err.geometryParse parseErrMsg) :=
  parse_failure_fails_build manifestBad "greenland" b0 [PyVal.vstr xFailLoc] xFailLoc
    (Or.inl (by decide)) rfl
    (by
      intro v hv
      rw [List.mem_singleton] at hv
      exact ⟨xFailLoc, hv⟩)
    (List.mem_singleton.mpr rfl) rfl

/-- Counterexample to claim C6 as stated: one build fails because the X
extraction yields no integer, another because the Y extraction yields no
integer, on two different location strings — yet both raise the identical
error value, so the raised error neither names the offending string nor
identifies which of the three extractions failed. -/
theorem parse_error_anonymous_counterexample :
    xInt xFailLoc = Option.none ∧ yInt xFailLoc = some 0 ∧
      epsgInt xFailLoc = some 3413 ∧
      xInt yFailLoc = some 0 ∧ yInt yFailLoc = Option.none ∧
      epsgInt yFailLoc = some 3413 ∧
      xFailLoc ≠ yFailLoc ∧
      getTiles [("composites_s3", [PyVal.vstr xFailLoc])] "greenland" b0 =
        .error (Err.geometryParse parseErrMsg) ∧
      getTiles [("composites_s3", [PyVal.vstr yFailLoc])] "greenland" b0 =
        .error (Err.geometryParse parseErrMsg) :=
  ⟨rfl, rfl, rfl, rfl, rfl, rfl, by decide, rfl, rfl⟩

/-- Amended claim C3: whenever the three patterns extract integers `x`, `y`
and a reference code from a location string, the derived footprint is the
axis-aligned square with corners `(x - 50000, y - 50000)` and
`(x + 50000, y + 50000)` and the decoded code is stored; the specification's
worked example must place the Y token directly before the `.zarr` suffix
(EPSG before X and Y, as in the real archive layout) for the extractions to
succeed — see the witness and the counterexample. -/
theorem footprint_square (s : Chars) (x y e : Int)
    (h : parseTile s = some (x, y, e)) :
    deriveTile s = some
      { loc := s
        geom := { xmin := x - 50000, ymin := y - 50000
                  xmax := x + 50000, ymax := y + 50000 }
        epsg := e } := by
  unfold deriveTile mkSquare
  rw [h]
  rfl

/-- Witness for claim C3: the corrected worked example
`"_EPSG3413_X123000_Y-50000.zarr"` derives the square
`[73000, 173000] × [-100000, 0]` with code 3413. -/
theorem footprint_square_witness :
    deriveTile exLoc = some
      { loc := exLoc
        geom := { xmin := 73000, ymin := -100000, xmax := 173000, ymax := 0 }
        epsg := 3413 } :=
  footprint_square exLoc 123000 (-50000) 3413 rfl

/-- Counterexample to claim C3 as stated: on a string of the worked
example's shape `"...X123000_Y-50000_EPSG3413..."` (EPSG after the Y token),
the lazy Y capture runs from the Y token up to the character before `zarr`
and is `"-50000_EPSG3413_"`, which is not an integer — so no footprint is
derived at all and the build would fail, instead of producing the square the
example promises. -/
theorem example_shape_counterexample :
    xInt exBadLoc = some 123000 ∧ epsgInt exBadLoc = some 3413 ∧
      yInt exBadLoc = Option.none ∧ parseTile exBadLoc = Option.none ∧
      deriveTile exBadLoc = Option.none :=
  ⟨rfl, rfl, rfl, rfl, rfl⟩
